import Mathlib

/-!
Shallow embedding of the portfolio-dashboard Flask backend (`src/app.py`).

The server is stateless except for the module-level catalog `SITES`; ambient
effects (the current time from `datetime.now()`, the outcome of the outbound
`requests.get`) are passed to the handlers as explicit parameters.  JSON
response bodies are modelled by a small `Json` inductive; each route handler
returns the pair of its HTTP status code and its JSON body, mirroring the
`jsonify(...), code` values in the source.
-/

/-- A portfolio site record, mirroring the dict entries of the module-level
`SITES` list in `app.py` (fields `id`, `url`, `title`, `description`,
`category`). -/
structure Site where
  id : Int
  url : String
  title : String
  description : String
  category : String
deriving DecidableEq, Repr

/-- The hardcoded catalog `SITES` from `app.py`, in source order. -/
def SITES : List Site :=
  [ { id := 1,
      url := "http://76.102.42.17:5100/",
      title := "Main Site (Port 5100)",
      description := "Primary portfolio website",
      category := "main" },
    { id := 2,
      url := "http://76.102.42.17:5000/video",
      title := "Video Demo",
      description := "Video demonstration and media showcase",
      category := "projects" },
    { id := 3,
      url := "https://instructions.online/?id=4610-25-0922-0650-rq200-servoarms_small-now",
      title := "Instructions Online",
      description := "RQ200 Servo Arms instructions and guide",
      category := "docs" },
    { id := 4,
      url := "http://quest.tny.cc/r200-ServoArmSm_Left-Test",
      title := "Quest Test - Servo Arm Left",
      description := "R200 ServoArm Left interactive test",
      category := "projects" } ]

/-- JSON values, as produced by Flask's `jsonify`. -/
inductive Json where
  | str (s : String)
  | int (n : Int)
  | bool (b : Bool)
  | arr (xs : List Json)
  | obj (fields : List (String × Json))

/-- Look up a top-level field of a JSON object by key. -/
def Json.getField : Json → String → Option Json
  | .obj fields, key => (fields.find? (fun p => p.1 == key)).map (·.2)
  | _, _ => none

/-- Serialization of a `Site` record as the JSON object `jsonify` emits for
the corresponding Python dict. -/
def Site.toJson (s : Site) : Json :=
  .obj [("id", .int s.id), ("url", .str s.url), ("title", .str s.title),
        ("description", .str s.description), ("category", .str s.category)]

/-- Handler for `GET /api/sites` (`get_sites` in `app.py`): wraps the whole
catalog, in order, in a `{success, data, timestamp}` envelope with status 200.
The module-level `SITES` is passed explicitly as `sites`; `now` is the value
of `datetime.now().isoformat()`. -/
def get_sites (sites : List Site) (now : String) : Nat × Json :=
  (200, .obj [("success", .bool true),
              ("data", .arr (sites.map Site.toJson)),
              ("timestamp", .str now)])

/-- Handler for `GET /api/sites/<int:site_id>` (`get_site` in `app.py`):
`next((s for s in SITES if s['id'] == site_id), None)` is `List.find?`; a hit
gives 200 with the record, a miss gives 404 with `"Site not found"`. -/
def get_site (sites : List Site) (site_id : Int) : Nat × Json :=
  match sites.find? (fun s => s.id == site_id) with
  | some site =>
      (200, .obj [("success", .bool true), ("data", site.toJson)])
  | none =>
      (404, .obj [("success", .bool false), ("error", .str "Site not found")])

/-- The upstream response of the outbound `requests.get(target_url, timeout=10)`
call: status code, decoded body text (`response.text`, a sequence of
characters), and headers. -/
structure UpstreamResponse where
  status_code : Int
  text : String
  headers : List (String × String)
deriving DecidableEq, Repr

/-- Outcome of the single outbound network call: either an upstream HTTP
response (any status code), or a `requests.RequestException` whose string
description (`str(e)`) is `msg`. -/
inductive FetchOutcome where
  | success (r : UpstreamResponse)
  | exn (msg : String)
deriving DecidableEq, Repr

/-- The 400 body returned by the proxy when the `url` query parameter is
missing or empty. -/
def urlRequiredBody : Json :=
  .obj [("success", .bool false), ("error", .str "URL parameter is required")]

/-- Handler for `GET /api/proxy` (`proxy_request` in `app.py`).
`target_url` is `request.args.get('url')` (`none` when the parameter is
absent); `if not target_url:` rejects both `None` and the empty string with
400 before any network activity.  Otherwise the outbound call's outcome
`net` is inspected: an upstream response of any status yields 200 with
`status_code`, the first 1000 characters of the decoded body, and the
headers; a `RequestException` yields 500 with `str(e)`. -/
def proxy_request (target_url : Option String) (net : FetchOutcome) : Nat × Json :=
  match target_url with
  | none => (400, urlRequiredBody)
  | some u =>
    if u.isEmpty then (400, urlRequiredBody)
    else
      match net with
      | .success r =>
          (200, .obj [("success", .bool true),
                      ("status_code", .int r.status_code),
                      ("content", .str (r.text.take 1000)),
                      ("headers", .obj (r.headers.map (fun p => (p.1, Json.str p.2))))])
      | .exn e =>
          (500, .obj [("success", .bool false), ("error", .str e)])

/-- Handler for `GET /api/health` (`health_check` in `app.py`): always 200
with the static status/service fields and the current timestamp. -/
def health_check (now : String) : Nat × Json :=
  (200, .obj [("status", .str "healthy"),
              ("timestamp", .str now),
              ("service", .str "Portfolio Dashboard API")])

/-- The 404 error handler `not_found` in `app.py`, reached for any request
that matches no route. -/
def not_found : Nat × Json :=
  (404, .obj [("success", .bool false), ("error", .str "Endpoint not found")])

/-- The 500 error handler `internal_error` in `app.py`. -/
def internal_error : Nat × Json :=
  (500, .obj [("success", .bool false), ("error", .str "Internal server error")])

/-- Werkzeug's `<int:site_id>` URL converter used by the route
`@app.route('/api/sites/<int:site_id>')`: the path segment must match the
converter's regular expression `\d+` (one or more decimal digits, no sign,
no dot); a matching segment — nonempty, all characters decimal digits — is
parsed as the nonnegative integer its digits denote, any other segment makes
the rule not match at all. -/
def int_converter (seg : String) : Option Int :=
  if seg.data ≠ [] ∧ seg.data.all Char.isDigit then
    some (Int.ofNat (seg.data.foldl (fun n c => 10 * n + (c.toNat - 48)) 0))
  else none

/-- Dispatch for a request path `/api/sites/<seg>`: if the `<int:...>`
converter accepts the segment, the `get_site` handler runs on the parsed
integer; otherwise no route matches and Flask invokes the 404 handler
(`not_found`, body `"Endpoint not found"`). -/
def route_api_sites_seg (sites : List Site) (seg : String) : Nat × Json :=
  match int_converter seg with
  | some n => get_site sites n
  | none => not_found

/-- The requests the app can receive, one constructor per route plus one for
unmatched paths. -/
inductive HttpRequest where
  | apiSites
  | apiSiteSeg (seg : String)
  | apiProxy (url : Option String)
  | apiHealth
  | otherPath
deriving DecidableEq, Repr

/-- Whole-app request handling: the catalog (the module-level `SITES` value)
is threaded through as explicit state, and returned alongside the response so
that absence of mutation is expressible.  `now` and `net` are the ambient
time and network outcome for this invocation. -/
def app_handle (sites : List Site) (now : String) (net : FetchOutcome) :
    HttpRequest → (Nat × Json) × List Site
  | .apiSites => (get_sites sites now, sites)
  | .apiSiteSeg seg => (route_api_sites_seg sites seg, sites)
  | .apiProxy url => (proxy_request url net, sites)
  | .apiHealth => (health_check now, sites)
  | .otherPath => (not_found, sites)

/-! ## Helper lemmas -/

/-- A nonempty string fails the `isEmpty` test. -/
theorem isEmpty_false_of_ne (u : String) (h : u ≠ "") : u.isEmpty = false := by
  rw [Bool.eq_false_iff]
  intro hc
  exact h ((String.isEmpty_iff u).mp hc)

/-- Unfolding of the proxy on a nonempty URL and an upstream response. -/
theorem proxy_request_ok_eq (u : String) (hf : u.isEmpty = false) (r : UpstreamResponse) :
    proxy_request (some u) (.success r)
      = (200, .obj [("success", .bool true),
                    ("status_code", .int r.status_code),
                    ("content", .str (r.text.take 1000)),
                    ("headers", .obj (r.headers.map (fun p => (p.1, Json.str p.2))))]) := by
  simp [proxy_request, hf]

/-- Taking at least `length` characters of a string returns the whole string. -/
theorem string_take_all (s : String) (n : Nat) (h : s.length ≤ n) : s.take n = s := by
  rw [String.take_eq, List.take_of_length_le h]

/-! ## Claims -/

/-- C1: for every integer id, `get_site` returns 200 with exactly the matching
catalog record when one exists, and 404 with body
`success = false, error = "Site not found"` when no record matches. -/
theorem getById_found_or_404 (site_id : Int) :
    (∀ s ∈ SITES, s.id = site_id →
      get_site SITES site_id
        = (200, .obj [("success", .bool true), ("data", s.toJson)])) ∧
    ((∀ s ∈ SITES, s.id ≠ site_id) →
      get_site SITES site_id
        = (404, .obj [("success", .bool false), ("error", .str "Site not found")])) := by
  constructor
  · intro s hs hid
    simp only [SITES, List.mem_cons, List.not_mem_nil, or_false] at hs
    rcases hs with h | h | h | h <;> (subst h; rw [← hid]; rfl)
  · intro h
    have hnone : SITES.find? (fun s => s.id == site_id) = none := by
      rw [List.find?_eq_none]
      intro x hx
      simpa using h x hx
    unfold get_site
    rw [hnone]

/-- C1 witness: id 2 is found with the exact record, id 999 yields the 404
body. -/
theorem getById_found_or_404_witness :
    get_site SITES 2
      = (200, .obj [("success", .bool true),
                    ("data", (Site.mk 2 "http://76.102.42.17:5000/video" "Video Demo"
                      "Video demonstration and media showcase" "projects").toJson)]) ∧
    get_site SITES 999
      = (404, .obj [("success", .bool false), ("error", .str "Site not found")]) := by
  constructor
  · exact (getById_found_or_404 2).1 _ (by simp [SITES]) rfl
  · exact (getById_found_or_404 999).2 (by decide)

/-- C2: the proxy's `content` field is the first 1000 characters of the
decoded upstream body — truncation is by character count (`String.take`
operates on the character sequence `data`), a body of at most 1000 characters
passes through whole, and a longer body is cut to exactly 1000 characters. -/
theorem proxy_content_first_1000_chars (u : String) (hu : u ≠ "") (r : UpstreamResponse) :
    Json.getField (proxy_request (some u) (.success r)).2 "content"
      = some (.str (r.text.take 1000)) ∧
    (r.text.take 1000).data = r.text.data.take 1000 ∧
    (r.text.take 1000).length = min 1000 r.text.length ∧
    (r.text.length ≤ 1000 →
      Json.getField (proxy_request (some u) (.success r)).2 "content"
        = some (.str r.text)) := by
  have hf := isEmpty_false_of_ne u hu
  refine ⟨?_, ?_, ?_, ?_⟩
  · rw [proxy_request_ok_eq u hf r]
    rfl
  · rw [String.take_eq]
  · rw [String.take_eq]
    exact List.length_take 1000 r.text.data
  · intro hlen
    rw [proxy_request_ok_eq u hf r, string_take_all r.text 1000 hlen]
    rfl

/-- C2 witness: a 5-character body passes through whole; a 1001-character
body is cut to its first 1000 characters. -/
theorem proxy_content_first_1000_chars_witness :
    Json.getField
      (proxy_request (some "http://example.com")
        (.success ⟨200, "hello", []⟩)).2 "content" = some (.str "hello") ∧
    (String.mk (List.replicate 1001 'a')).take 1000
      = String.mk (List.replicate 1000 'a') := by
  constructor
  · exact (proxy_content_first_1000_chars "http://example.com" (by decide)
      ⟨200, "hello", []⟩).2.2.2 (by decide)
  · have h := (proxy_content_first_1000_chars "http://example.com" (by decide)
      ⟨200, String.mk (List.replicate 1001 'a'), []⟩).2.1
    apply String.ext
    rw [h]
    show (List.replicate 1001 'a').take 1000 = List.replicate 1000 'a'
    rw [List.take_replicate]
    norm_num

/-- C3: with the `url` parameter absent or empty, the proxy answers 400 with
`error = "URL parameter is required"`, and the answer does not depend on the
network outcome in any way — no outbound call is consulted. -/
theorem proxy_missing_url_400 (net net2 : FetchOutcome) :
    proxy_request none net
      = (400, .obj [("success", .bool false),
                    ("error", .str "URL parameter is required")]) ∧
    proxy_request (some "") net
      = (400, .obj [("success", .bool false),
                    ("error", .str "URL parameter is required")]) ∧
    proxy_request none net = proxy_request none net2 ∧
    proxy_request (some "") net = proxy_request (some "") net2 :=
  ⟨rfl, rfl, rfl, rfl⟩

/-- C4: an upstream response of any HTTP status — including 4xx and 5xx —
yields a 200 proxy response with `success = true` whose `status_code` field
equals the upstream status; only a network-level exception takes the failure
branch. -/
theorem proxy_upstream_status_passthrough (u : String) (hu : u ≠ "")
    (r : UpstreamResponse) :
    proxy_request (some u) (.success r)
      = (200, .obj [("success", .bool true),
                    ("status_code", .int r.status_code),
                    ("content", .str (r.text.take 1000)),
                    ("headers", .obj (r.headers.map (fun p => (p.1, Json.str p.2))))]) ∧
    Json.getField (proxy_request (some u) (.success r)).2 "status_code"
      = some (.int r.status_code) := by
  have hf := isEmpty_false_of_ne u hu
  refine ⟨proxy_request_ok_eq u hf r, ?_⟩
  rw [proxy_request_ok_eq u hf r]
  rfl

/-- C4 witness: an upstream 503 still produces a 200 proxy response with
`status_code = 503`. -/
theorem proxy_upstream_status_passthrough_witness :
    proxy_request (some "http://example.com") (.success ⟨503, "down", []⟩)
      = (200, .obj [("success", .bool true),
                    ("status_code", .int 503),
                    ("content", .str "down"),
                    ("headers", .obj [])]) := by
  have h := (proxy_upstream_status_passthrough "http://example.com" (by decide)
    ⟨503, "down", []⟩).1
  rw [h, string_take_all "down" 1000 (by decide)]
  rfl

/-- C5: a network-level failure of the outbound GET produces a 500 response
whose body is exactly `success = false, error = <description>` — the error
string of the exception and nothing else. -/
theorem proxy_network_error_500 (u : String) (hu : u ≠ "") (e : String) :
    proxy_request (some u) (.exn e)
      = (500, .obj [("success", .bool false), ("error", .str e)]) := by
  have hf := isEmpty_false_of_ne u hu
  simp [proxy_request, hf]

/-- C5 witness: a concrete connection error maps to the 500 envelope with its
description. -/
theorem proxy_network_error_500_witness :
    proxy_request (some "http://10.255.255.1/") (.exn "ConnectTimeout")
      = (500, .obj [("success", .bool false), ("error", .str "ConnectTimeout")]) :=
  proxy_network_error_500 "http://10.255.255.1/" (by decide) "ConnectTimeout"

/-- C6: `get_sites` always answers 200 with the full catalog, in order, under
`success`/`data`/`timestamp`, for any catalog including the empty one. -/
theorem listAll_total_in_order (sites : List Site) (now : String) :
    get_sites sites now
      = (200, .obj [("success", .bool true),
                    ("data", .arr (sites.map Site.toJson)),
                    ("timestamp", .str now)]) ∧
    Json.getField (get_sites sites now).2 "data"
      = some (.arr (sites.map Site.toJson)) ∧
    (sites.map Site.toJson).length = sites.length ∧
    Json.getField (get_sites [] now).2 "data" = some (.arr []) :=
  ⟨rfl, rfl, List.length_map sites Site.toJson, rfl⟩

/-- C7: the catalog's `id` values are pairwise distinct, and no route handler
mutates the catalog: the state after handling any request equals the state
before. -/
theorem catalog_ids_unique_and_immutable :
    (SITES.map Site.id).Nodup ∧
    ∀ (sites : List Site) (now : String) (net : FetchOutcome) (req : HttpRequest),
      (app_handle sites now net req).2 = sites := by
  refine ⟨by decide, ?_⟩
  intro sites now net req
  cases req <;> rfl

/-- C8: every health-check invocation answers 200 with
`status = "healthy"`, the current timestamp, and the service name; the
status is unconditionally `"healthy"`. -/
theorem health_always_healthy (now : String) :
    health_check now
      = (200, .obj [("status", .str "healthy"),
                    ("timestamp", .str now),
                    ("service", .str "Portfolio Dashboard API")]) ∧
    Json.getField (health_check now).2 "status" = some (.str "healthy") :=
  ⟨rfl, rfl⟩

/-- C9: a path segment the `<int:...>` converter rejects never reaches the
lookup handler: the response is the 404 `"Endpoint not found"` body of the
unmatched-route handler, and in particular its error message is never the
`"Site not found"` text that the lookup handler reserves for absent integer
ids. -/
theorem nonint_segment_endpoint_not_found (sites : List Site) (seg : String)
    (h : int_converter seg = none) :
    route_api_sites_seg sites seg
      = (404, .obj [("success", .bool false), ("error", .str "Endpoint not found")]) ∧
    ∀ st b, route_api_sites_seg sites seg = (st, b) →
      Json.getField b "error" ≠ some (.str "Site not found") := by
  have h404 : route_api_sites_seg sites seg
      = (404, .obj [("success", .bool false), ("error", .str "Endpoint not found")]) := by
    unfold route_api_sites_seg
    rw [h]
    rfl
  refine ⟨h404, ?_⟩
  intro st b hb hc
  rw [h404] at hb
  injection hb with hst hbody
  rw [← hbody] at hc
  have hval : Json.getField
      (Json.obj [("success", Json.bool false), ("error", Json.str "Endpoint not found")])
      "error" = some (Json.str "Endpoint not found") := rfl
  rw [hval] at hc
  injection hc with hc1
  injection hc1 with hc2
  exact absurd hc2 (by decide)

/-- C9 witness: the segments `"abc"` and `"1.5"` are rejected by the
converter and answered with the `"Endpoint not found"` body. -/
theorem nonint_segment_endpoint_not_found_witness :
    int_converter "abc" = none ∧
    route_api_sites_seg SITES "abc"
      = (404, .obj [("success", .bool false), ("error", .str "Endpoint not found")]) ∧
    int_converter "1.5" = none ∧
    route_api_sites_seg SITES "1.5"
      = (404, .obj [("success", .bool false), ("error", .str "Endpoint not found")]) :=
  ⟨by decide, (nonint_segment_endpoint_not_found SITES "abc" (by decide)).1,
   by decide, (nonint_segment_endpoint_not_found SITES "1.5" (by decide)).1⟩

/-- C10: the by-id lookup is deterministic and timestamp-free: its response
does not depend on the invocation's time or network outcome, so two
invocations with the same id give identical bodies, and its envelope has no
`timestamp` field — unlike the `/api/sites` listing, whose envelope carries
the invocation's timestamp. -/
theorem getById_deterministic_no_timestamp :
    (∀ (sites : List Site) (seg : String) (now1 now2 : String)
        (net1 net2 : FetchOutcome),
      (app_handle sites now1 net1 (.apiSiteSeg seg)).1
        = (app_handle sites now2 net2 (.apiSiteSeg seg)).1) ∧
    (∀ (sites : List Site) (site_id : Int),
      Json.getField (get_site sites site_id).2 "timestamp" = none) ∧
    (∀ now : String,
      Json.getField (get_sites SITES now).2 "timestamp" = some (.str now)) := by
  refine ⟨fun _ _ _ _ _ _ => rfl, ?_, fun _ => rfl⟩
  intro sites site_id
  unfold get_site
  cases hf : sites.find? (fun s => s.id == site_id) with
  | some site => rfl
  | none => rfl
